import Mathlib

/-!
Verification of the WAN impairment controller (`wan_manager.py`).

The script drives the `tc`/`ip` shaping backend of two interfaces.  We embed
it in two layers:

* a text layer, translating the read-path parsers `get_netem_params`,
  `get_htb_rate` and `get_interface_status` over the raw backend output
  (`Option String`: `none` models a failed `run_command`, which returns
  Python `None`; `run_command` also strips output, and the parsers treat an
  empty string like `None` because of Python's `if not output:` truthiness).
  An out-of-range list index in the Python source (an uncaught `IndexError`)
  is modelled as `PyResult.exc`.

* a state layer over an abstract shaping backend.  The backend itself
  (`tc`) is external to the repository; following the spec's Backend
  Adapter contract, an interface's shaping state is `Option ShapeConf`
  (`none` = no qdisc hierarchy installed) and queries read it directly.
  Write commands may fail; an oracle `changeOk : Bool` (or, in the trace
  model, `exec : Cmd → Bool`) decides the success of each command, and an
  in-place change can only succeed when a hierarchy exists.
-/

namespace WanManager

/-! ## String helpers

Structural-recursion versions of Python's `str.split()` (whitespace,
dropping empty pieces), `str.splitlines()`, substring membership
(`'pat' in s`), `str.endswith` and `str.startswith`.  They are written over
`List Char` so that every claim evaluates by kernel reduction. -/

/-- Split a character list at every character satisfying `p`, keeping empty
pieces (the accumulator `cur` holds the current piece, reversed). -/
def splitWhenAux (p : Char → Bool) (cur : List Char) : List Char → List (List Char)
  | [] => [cur.reverse]
  | c :: cs =>
    if p c then cur.reverse :: splitWhenAux p [] cs
    else splitWhenAux p (c :: cur) cs

/-- Python `str.split()`: split on whitespace runs, dropping empty pieces. -/
def pySplit (s : String) : List String :=
  ((splitWhenAux Char.isWhitespace [] s.toList).map fun l => String.mk l).filter (· ≠ "")

/-- Python `str.splitlines()` for newline-separated text (a trailing
newline yields one extra empty line, which no caller distinguishes). -/
def splitlines (s : String) : List String :=
  (splitWhenAux (fun c => c = '\n') [] s.toList).map fun l => String.mk l

/-- Boolean list-prefix test (structural, kernel-reducible). -/
def charsPrefixOf : List Char → List Char → Bool
  | [], _ => true
  | _ :: _, [] => false
  | a :: as, b :: bs => a = b && charsPrefixOf as bs

/-- Boolean list-infix test: `pat` occurs contiguously in the second list. -/
def charsInfixOf (pat : List Char) : List Char → Bool
  | [] => charsPrefixOf pat []
  | c :: cs => charsPrefixOf pat (c :: cs) || charsInfixOf pat cs

/-- Python `pat in s` substring membership. -/
def strContains (s pat : String) : Bool :=
  charsInfixOf pat.toList s.toList

/-- Python `s.endswith(suf)`. -/
def strEndsWith (s suf : String) : Bool :=
  charsPrefixOf suf.toList.reverse s.toList.reverse

/-- Python `s.startswith(pre)`. -/
def strStartsWith (s pre : String) : Bool :=
  charsPrefixOf pre.toList s.toList

/-- Result of a Python call that may raise: `exc` models an uncaught
exception (here always `IndexError` from an out-of-range `parts[i+1]`). -/
inductive PyResult (α : Type) where
  | ok (val : α)
  | exc
deriving DecidableEq, Repr

/-- Apply a function to the value of a non-raising result. -/
def PyResult.map {α β : Type} (f : α → β) : PyResult α → PyResult β
  | .ok a => .ok (f a)
  | .exc => .exc

/-! ## Constants (`wan_manager.py` lines 7-14) -/

/-- Primary interface (source `WAN1 = "ens19"`). -/
def WAN1 : String := "ens19"

/-- Secondary interface (source `WAN2 = "ens20"`). -/
def WAN2 : String := "ens20"

/-- A full shaping configuration: the rate-limiting class's bandwidth plus
the emulation rule's delay/jitter/loss.  Also the shape of one
`DEFAULT_PARAMS` entry. -/
structure ShapeConf where
  bandwidth : String
  delay : String
  jitter : String
  loss : String
deriving DecidableEq, Repr

/-- Source `DEFAULT_PARAMS` dict; its only keys are `WAN1` and `WAN2`, so we
map every non-`WAN1` key to the `WAN2` entry. -/
def DEFAULT_PARAMS (iface : String) : ShapeConf :=
  if iface = WAN1 then ⟨"100mbit", "0ms", "0ms", "0%"⟩
  else ⟨"50mbit", "30ms", "0ms", "0%"⟩

/-! ## State Reader, text layer (`wan_manager.py` lines 25-74) -/

/-- Result of `get_netem_params`: the `{'delay': _, 'jitter': _, 'loss': _}`
dict. -/
structure NetemParams where
  delay : String
  jitter : String
  loss : String
deriving DecidableEq, Repr

/-- The params dict while the `while i < len(parts)` loop is running:
each key may still be absent (`setdefault` fills them afterwards). -/
structure PartialNetem where
  delay : Option String := none
  jitter : Option String := none
  loss : Option String := none
deriving DecidableEq, Repr

/-- The lookahead guard of source line 39: the token two past `"delay"` is
consumed as jitter only when it exists (`i+2 < len(parts)`), ends with
`"ms"` and does not start with `"loss"`. -/
def jitterTake (rest2 : List String) : Bool :=
  match rest2 with
  | t :: _ => strEndsWith t "ms" && !(strStartsWith t "loss")
  | [] => false

/-- The token-scanning loop of `get_netem_params` (source lines 35-48).
`parts[i+1]` past the end of the list raises `IndexError`, modelled as
`PyResult.exc`.  After storing the delay value the loop advances by 3 when
`jitterTake` consumes the next token as jitter, else by 2. -/
def netemLoop : List String → PartialNetem → PyResult PartialNetem
  | [], p => .ok p
  | tok :: rest, p =>
    if tok = "delay" then
      match rest with
      | [] => .exc
      | v :: rest2 =>
        if jitterTake rest2 then
          match rest2 with
          | t :: rest3 => netemLoop rest3 { p with delay := some v, jitter := some t }
          | [] => .ok { p with delay := some v }
        else
          netemLoop rest2 { p with delay := some v }
    else if tok = "loss" then
      match rest with
      | [] => .exc
      | v :: rest2 => netemLoop rest2 { p with loss := some v }
    else
      netemLoop rest p

/-- The `setdefault` calls of source lines 49-51. -/
def finalizeNetem (p : PartialNetem) : NetemParams :=
  ⟨p.delay.getD "0ms", p.jitter.getD "0ms", p.loss.getD "0%"⟩

/-- Parse one `netem` line: run the token loop on `line.split()` and fill
defaults. -/
def parseNetemLine (parts : List String) : PyResult NetemParams :=
  (netemLoop parts {}).map finalizeNetem

/-- Source `get_netem_params` (lines 25-53) as a function of the
`tc qdisc show` output.  `none` or `""` (falsy) yields the zero triple;
otherwise the first line containing `"netem"` is parsed; no such line also
yields the zero triple. -/
def get_netem_params (output : Option String) : PyResult NetemParams :=
  match output with
  | none => .ok ⟨"0ms", "0ms", "0%"⟩
  | some out =>
    if out = "" then .ok ⟨"0ms", "0ms", "0%"⟩
    else
      match (splitlines out).find? (fun line => strContains line "netem") with
      | some line => parseNetemLine (pySplit line)
      | none => .ok ⟨"0ms", "0ms", "0%"⟩

/-- The inner `for i in range(len(parts))` scan of `get_htb_rate` (source
lines 63-66): the value after the first `"rate"` token, `some .exc`
when `"rate"` is the final token (`parts[i+1]` raises `IndexError`), `none`
when the line has no `"rate"` token (the outer loop then moves on). -/
def rateInLine : List String → Option (PyResult String)
  | [] => none
  | tok :: rest =>
    if tok = "rate" then
      match rest with
      | [] => some .exc
      | v :: _ => some (.ok v)
    else rateInLine rest

/-- The line loop of `get_htb_rate` (source lines 61-67). -/
def htbLines : List String → PyResult String
  | [] => .ok "no limit"
  | line :: rest =>
    if strContains line "class htb 1:10" then
      match rateInLine (pySplit line) with
      | some r => r
      | none => htbLines rest
    else htbLines rest

/-- Source `get_htb_rate` (lines 55-67) as a function of the
`tc class show` output. -/
def get_htb_rate (output : Option String) : PyResult String :=
  match output with
  | none => .ok "no limit"
  | some out =>
    if out = "" then .ok "no limit"
    else htbLines (splitlines out)

/-- Source `get_interface_status` (lines 69-74) as a function of the
`ip link show` output. -/
def get_interface_status (output : Option String) : String :=
  match output with
  | none => "UNKNOWN"
  | some out =>
    if out = "" then "UNKNOWN"
    else if strContains out "state UP" then "UP"
    else if strContains out "state DOWN" then "DOWN"
    else "UNKNOWN"

/-! ## Abstract backend state (spec §6 Backend Adapter contract)

Modelled from the spec: the shaping backend (`tc`) is an external
collaborator, not code of this repository.  One interface's shaping state
is `Option ShapeConf`: `none` means no qdisc hierarchy is installed, `some
c` that the HTB class holds rate `c.bandwidth` and the netem rule holds
`c.delay`/`c.jitter`/`c.loss`.  Queries read this state directly (the
composition of the backend's rendering with the source's parser); an
in-place `tc ... change` command can succeed only when a hierarchy exists,
and an oracle `changeOk` decides whether the backend accepts it. -/

/-- Modelled from the spec: `readImpairment` against the abstract backend
state — the emulation rule's parameters, or the zero-value triple when no
hierarchy exists. -/
def readNetemSt : Option ShapeConf → NetemParams
  | some c => ⟨c.delay, c.jitter, c.loss⟩
  | none => ⟨"0ms", "0ms", "0%"⟩

/-- Modelled from the spec: `readRate` against the abstract backend state —
the HTB class rate, or the `"no limit"` sentinel when no hierarchy
exists. -/
def readRateSt : Option ShapeConf → String
  | some c => c.bandwidth
  | none => "no limit"

/-- Python `x or default` for an optional string argument: `None` and the
empty string are falsy. -/
def pyOr (o : Option String) (d : String) : String :=
  match o with
  | some s => if s = "" then d else s
  | none => d

/-! ## Idempotent Mutator, state layer (`wan_manager.py` lines 76-108) -/

/-- Source `setup_qdiscs` (lines 76-82) on the abstract state: delete any
hierarchy, then create root, class (with `bandwidth`) and netem rule (with
`delay`/`jitter`/`loss`). -/
def setup_qdiscsSt (bandwidth delay jitter loss : String) : Option ShapeConf :=
  some ⟨bandwidth, delay, jitter, loss⟩

/-- Source `set_netem` (lines 84-97) on the abstract state.  Missing
arguments default to the current reading (`delay or current['delay']`,
...).  If the in-place change succeeds the netem fields are replaced; on
failure the fallback rebuilds with the current HTB rate when one is set,
else the interface's `DEFAULT_PARAMS` bandwidth (lines 95-97). -/
def set_netemSt (iface : String) (changeOk : Bool) (st : Option ShapeConf)
    (delay jitter loss : Option String) : Option ShapeConf :=
  let current := readNetemSt st
  let d := pyOr delay current.delay
  let j := pyOr jitter current.jitter
  let l := pyOr loss current.loss
  match st, changeOk with
  | some c, true => some { c with delay := d, jitter := j, loss := l }
  | _, _ =>
    let current_rate := readRateSt st
    let bandwidth := if current_rate ≠ "no limit" then current_rate
                     else (DEFAULT_PARAMS iface).bandwidth
    setup_qdiscsSt bandwidth d j l

/-- Source `set_htb_rate` (lines 99-104) on the abstract state.  If the
in-place class change succeeds only the bandwidth is replaced; on failure
the fallback rebuilds with the freshly read current netem parameters. -/
def set_htb_rateSt (changeOk : Bool) (st : Option ShapeConf) (rate : String) :
    Option ShapeConf :=
  match st, changeOk with
  | some c, true => some { c with bandwidth := rate }
  | _, _ =>
    let current := readNetemSt st
    setup_qdiscsSt rate current.delay current.jitter current.loss

/-! ## Toggle Engine (`wan_manager.py` lines 110-138) -/

/-- Source `toggle_jitter_wan2` (lines 122-126) on the abstract state:
`new_jitter = '10ms' if current['jitter'] == '1ms' else '1ms'`, applied via
`set_netem` with the default delay and the current loss. -/
def toggle_jitter_wan2St (changeOk : Bool) (st : Option ShapeConf) : Option ShapeConf :=
  let current := readNetemSt st
  let new_jitter := if current.jitter = "1ms" then "10ms" else "1ms"
  set_netemSt WAN2 changeOk st (some (DEFAULT_PARAMS WAN2).delay) (some new_jitter)
    (some current.loss)

/-- Source `toggle_bandwidth_wan1` (lines 128-132) on the abstract state:
`new_rate = '10mbit' if current_rate == '100mbit' else '100mbit'`, applied
via `set_htb_rate`. -/
def toggle_bandwidth_wan1St (changeOk : Bool) (st : Option ShapeConf) : Option ShapeConf :=
  let current_rate := readRateSt st
  let new_rate := if current_rate = "100mbit" then "10mbit" else "100mbit"
  set_htb_rateSt changeOk st new_rate

/-- Source `toggle_interface_status_wan2` (lines 134-138) as the list of
`ip link set` state arguments it issues, as a function of the raw
`ip link show` output:
`new_state = 'down' if current_status == 'UP' else 'up'`, and exactly one
`set_interface_status` call is made. -/
def toggle_interface_status_wan2Cmds (output : Option String) : List String :=
  let current_status := get_interface_status output
  let new_state := if current_status = "UP" then "down" else "up"
  [new_state]

/-! ## Trace layer for the write path (`wan_manager.py` lines 76-104)

Each mutating `tc` invocation is a `Cmd`; an oracle `exec : Cmd → Bool`
says whether the backend accepts it.  A run records the issued commands
with their outcomes, plus the Python return value — which for every
mutating function of the source is the bare `None` (`-> None`
annotations; `run_command` only prints on failure). -/

/-- The mutating `tc` commands the write path can issue. -/
inductive Cmd where
  | qdiscChangeNetem (delay jitter loss : String)
  | classChangeRate (rate : String)
  | qdiscDelRoot
  | qdiscAddRootHtb
  | classAddHtb (rate : String)
  | qdiscAddNetem (delay jitter loss : String)
deriving DecidableEq, Repr

/-- The Python return value of every mutating function: `None`. -/
inductive PyNone where
  | none
deriving DecidableEq, Repr

/-- Source `setup_qdiscs` (lines 76-82) as a trace: the four commands are
issued unconditionally, in order, with their outcomes ignored. -/
def setup_qdiscsRun (exec : Cmd → Bool) (bandwidth delay jitter loss : String) :
    List (Cmd × Bool) :=
  [ (Cmd.qdiscDelRoot, exec Cmd.qdiscDelRoot),
    (Cmd.qdiscAddRootHtb, exec Cmd.qdiscAddRootHtb),
    (Cmd.classAddHtb bandwidth, exec (Cmd.classAddHtb bandwidth)),
    (Cmd.qdiscAddNetem delay jitter loss, exec (Cmd.qdiscAddNetem delay jitter loss)) ]

/-- The in-place change command `set_netem` builds from its arguments and
the current reading (source lines 86-93). -/
def netemChangeCmdOf (st : Option ShapeConf) (delay jitter loss : Option String) : Cmd :=
  let current := readNetemSt st
  Cmd.qdiscChangeNetem (pyOr delay current.delay) (pyOr jitter current.jitter)
    (pyOr loss current.loss)

/-- Source `set_netem` (lines 84-97) as a trace: try the in-place change;
on failure read the rate and rebuild.  The function returns `None` on every
path. -/
def set_netemRun (iface : String) (exec : Cmd → Bool) (st : Option ShapeConf)
    (delay jitter loss : Option String) : List (Cmd × Bool) × PyNone :=
  let current := readNetemSt st
  let d := pyOr delay current.delay
  let j := pyOr jitter current.jitter
  let l := pyOr loss current.loss
  let chg := Cmd.qdiscChangeNetem d j l
  if exec chg then ([(chg, true)], PyNone.none)
  else
    let current_rate := readRateSt st
    let bandwidth := if current_rate ≠ "no limit" then current_rate
                     else (DEFAULT_PARAMS iface).bandwidth
    ((chg, false) :: setup_qdiscsRun exec bandwidth d j l, PyNone.none)

/-- Source `set_htb_rate` (lines 99-104) as a trace. -/
def set_htb_rateRun (exec : Cmd → Bool) (st : Option ShapeConf) (rate : String) :
    List (Cmd × Bool) × PyNone :=
  let chg := Cmd.classChangeRate rate
  if exec chg then ([(chg, true)], PyNone.none)
  else
    let current := readNetemSt st
    ((chg, false) :: setup_qdiscsRun exec rate current.delay current.jitter current.loss,
      PyNone.none)

/-- The commands of a run, outcomes stripped. -/
def runCmds (r : List (Cmd × Bool) × PyNone) : List Cmd := r.1.map Prod.fst

/-- Whether a command belongs to the rebuild (`setup_qdiscs`) sequence. -/
def isRebuildCmd : Cmd → Bool
  | Cmd.qdiscDelRoot => true
  | Cmd.qdiscAddRootHtb => true
  | Cmd.classAddHtb _ => true
  | Cmd.qdiscAddNetem _ _ _ => true
  | _ => false

/-- Whether some rebuild command in the trace failed. -/
def rebuildFailed (trace : List (Cmd × Bool)) : Bool :=
  trace.any fun p => isRebuildCmd p.1 && !p.2

/-! ## Helper lemmas -/

/-- After `set_netemSt` with an explicitly given non-empty jitter argument,
the backend holds exactly that jitter (both on the in-place path and on the
rebuild path). -/
theorem set_netemSt_jitter (iface : String) (changeOk : Bool) (st : Option ShapeConf)
    (delay loss : Option String) (j : String) (hj : j ≠ "") :
    (readNetemSt (set_netemSt iface changeOk st delay (some j) loss)).jitter = j := by
  cases st <;> cases changeOk <;>
    simp [set_netemSt, setup_qdiscsSt, readNetemSt, readRateSt, pyOr, hj]

/-- After `set_htb_rateSt` the backend holds exactly the requested rate
(both on the in-place path and on the rebuild path). -/
theorem set_htb_rateSt_rate (changeOk : Bool) (st : Option ShapeConf) (rate : String) :
    readRateSt (set_htb_rateSt changeOk st rate) = rate := by
  cases st <;> cases changeOk <;> rfl

/-- A `tc class show` listing none of whose lines mentions
`class htb 1:10` scans through to the `"no limit"` default. -/
theorem htbLines_no_class (ls : List String)
    (h : ∀ l ∈ ls, strContains l "class htb 1:10" = false) :
    htbLines ls = .ok "no limit" := by
  induction ls with
  | nil => rfl
  | cons a tl ih =>
    have ha := h a (List.mem_cons_self a tl)
    rw [htbLines, ha]
    simp only [Bool.false_eq_true, if_false]
    exact ih fun l hl => h l (List.mem_cons_of_mem a hl)

end WanManager

namespace WanManager

/-! ## Claims -/

/-- C1: the spec says `toggle_jitter_wan2` sends any unrecognized current
jitter to the high constant `'10ms'`.  Counterexample: with current jitter
`'5ms'` the code's `'10ms' if current['jitter'] == '1ms' else '1ms'` sets
`'1ms'` (the low constant), not `'10ms'`. -/
theorem toggle_jitter_wan2_unrecognized_cex :
    (readNetemSt (some ⟨"50mbit", "30ms", "5ms", "0%"⟩)).jitter = "5ms" ∧
    (readNetemSt (toggle_jitter_wan2St true (some ⟨"50mbit", "30ms", "5ms", "0%"⟩))).jitter
      = "1ms" :=
  ⟨rfl, by decide⟩

/-- C1 (amended): `toggle_jitter_wan2` sets jitter to `'10ms'` exactly when
the current jitter reads `'1ms'`, and to `'1ms'` for every other current
value (including `'10ms'` and unrecognized values) — treating an
unrecognized value like the high constant — without crashing or looping,
for every backend state and for either outcome of the in-place change. -/
theorem toggle_jitter_wan2_toggle_spec (changeOk : Bool) (st : Option ShapeConf) :
    (readNetemSt (toggle_jitter_wan2St changeOk st)).jitter =
      if (readNetemSt st).jitter = "1ms" then "10ms" else "1ms" := by
  by_cases h : (readNetemSt st).jitter = "1ms" <;>
    simp [toggle_jitter_wan2St, h, set_netemSt_jitter]

/-- C2: the spec says `toggle_bandwidth_wan1` sends any unrecognized
current rate (including `'no limit'`) to the reduced-rate constant
`'10mbit'`.  Counterexample: with current rate `'50mbit'` the code's
`'10mbit' if current_rate == '100mbit' else '100mbit'` sets `'100mbit'`
(the full-rate constant), not `'10mbit'`. -/
theorem toggle_bandwidth_wan1_unrecognized_cex :
    readRateSt (some ⟨"50mbit", "0ms", "0ms", "0%"⟩) = "50mbit" ∧
    readRateSt (toggle_bandwidth_wan1St true (some ⟨"50mbit", "0ms", "0ms", "0%"⟩))
      = "100mbit" :=
  ⟨rfl, by decide⟩

/-- C2 (amended): `toggle_bandwidth_wan1` sets the rate to `'10mbit'`
exactly when the current rate reads `'100mbit'`, and to `'100mbit'` for
every other current value (including `'10mbit'`, `'no limit'` and
unrecognized values), for every backend state and either outcome of the
in-place change. -/
theorem toggle_bandwidth_wan1_toggle_spec (changeOk : Bool) (st : Option ShapeConf) :
    readRateSt (toggle_bandwidth_wan1St changeOk st) =
      if readRateSt st = "100mbit" then "10mbit" else "100mbit" := by
  simp [toggle_bandwidth_wan1St, set_htb_rateSt_rate]

/-- C3: when `set_netem` falls back to `setup_qdiscs`, the rebuilt class
uses the current rate when one is set and the interface's `DEFAULT_PARAMS`
bandwidth otherwise; consequently a `set_netem` call on an interface whose
rate reads `r ≠ 'no limit'` leaves the rate reading `r`. -/
theorem set_netem_preserves_rate (iface : String) (changeOk : Bool)
    (st : Option ShapeConf) (delay jitter loss : Option String) (r : String) :
    (readRateSt st = r → r ≠ "no limit" →
      readRateSt (set_netemSt iface changeOk st delay jitter loss) = r) ∧
    ((st = none ∨ changeOk = false) → readRateSt st = "no limit" →
      readRateSt (set_netemSt iface changeOk st delay jitter loss) =
        (DEFAULT_PARAMS iface).bandwidth) := by
  constructor
  · intro hr hne
    subst hr
    rcases st with _ | c
    · exact absurd rfl hne
    · cases changeOk
      · simp [set_netemSt, setup_qdiscsSt, readRateSt] at hne ⊢
        simp [hne]
      · rfl
  · intro hcase hnl
    rcases st with _ | c
    · cases changeOk <;> simp [set_netemSt, setup_qdiscsSt, readRateSt]
    · simp [readRateSt] at hnl
      cases changeOk
      · simp [set_netemSt, setup_qdiscsSt, readRateSt, hnl]
      · rcases hcase with h | h <;> simp_all

/-- C3 witness: a concrete failed in-place change on a `50mbit` interface
keeps the rate at `50mbit`, and on an uninitialized interface the rebuild
uses the `WAN1` default bandwidth. -/
theorem set_netem_preserves_rate_witness :
    readRateSt (set_netemSt WAN1 false (some ⟨"50mbit", "30ms", "0ms", "0%"⟩)
      (some "10ms") (some "2ms") (some "1%")) = "50mbit" ∧
    readRateSt (set_netemSt WAN1 false none (some "10ms") (some "2ms") (some "1%")) =
      (DEFAULT_PARAMS WAN1).bandwidth :=
  ⟨(set_netem_preserves_rate WAN1 false (some ⟨"50mbit", "30ms", "0ms", "0%"⟩)
      (some "10ms") (some "2ms") (some "1%") "50mbit").1 rfl (by decide),
   (set_netem_preserves_rate WAN1 false none
      (some "10ms") (some "2ms") (some "1%") "no limit").2 (Or.inl rfl) rfl⟩

/-- C4: `set_htb_rate` leaves the impairment reading unchanged for every
interface state, every new rate and either outcome of the in-place change:
the in-place path touches only the class rate, and the fallback rebuild
reuses the freshly read current delay/jitter/loss. -/
theorem set_htb_rate_preserves_impairment (changeOk : Bool) (st : Option ShapeConf)
    (rate : String) :
    readNetemSt (set_htb_rateSt changeOk st rate) = readNetemSt st := by
  cases st <;> cases changeOk <;> rfl

/-- C5: `get_netem_params` does not always return a fully populated triple:
on a listing whose netem line ends with a bare `delay` keyword, the
unguarded `parts[i+1]` raises `IndexError` instead of defaulting. -/
theorem get_netem_params_raises_on_trailing_delay :
    get_netem_params (some "qdisc netem 8001: root refcnt 2 limit 1000 delay") =
      PyResult.exc := by decide

/-- C6: the spec says a token after the delay value ending in any time unit
is consumed as jitter.  Counterexample: after `delay 100ms` the token `1s`
ends in the time unit `s` but not in `ms`, so the code leaves jitter at its
`'0ms'` default instead of consuming `'1s'`. -/
theorem netem_jitter_time_unit_cex :
    get_netem_params (some "qdisc netem 10: root limit 1000 delay 100ms 1s") =
      PyResult.ok ⟨"100ms", "0ms", "0%"⟩ := by decide

/-- C6 (amended): in a netem rule line the token immediately following the
delay value is consumed as jitter iff it is present, ends with `"ms"` and
does not start with `"loss"`; a token ending in a time unit other than
`ms` is not consumed and jitter stays at its zero default. -/
theorem netem_jitter_consumption_spec (v t : String) :
    (strEndsWith t "ms" = true → strStartsWith t "loss" = false →
      parseNetemLine ["netem", "delay", v, t] = .ok ⟨v, t, "0%"⟩) ∧
    (strEndsWith t "ms" = false → t ≠ "delay" → t ≠ "loss" →
      parseNetemLine ["netem", "delay", v, t] = .ok ⟨v, "0ms", "0%"⟩) := by
  constructor
  · intro h1 h2
    simp [parseNetemLine, netemLoop, jitterTake, finalizeNetem, h1, h2, PyResult.map]
  · intro h1 h2 h3
    simp [parseNetemLine, netemLoop, jitterTake, finalizeNetem, h1, h2, h3, PyResult.map]

/-- C6 witness: `2ms` after `delay 100ms` is consumed as jitter; `1s` is
not. -/
theorem netem_jitter_consumption_witness :
    parseNetemLine ["netem", "delay", "100ms", "2ms"] = .ok ⟨"100ms", "2ms", "0%"⟩ ∧
    parseNetemLine ["netem", "delay", "100ms", "1s"] = .ok ⟨"100ms", "0ms", "0%"⟩ :=
  ⟨(netem_jitter_consumption_spec "100ms" "2ms").1 (by decide) (by decide),
   (netem_jitter_consumption_spec "100ms" "1s").2 (by decide) (by decide) (by decide)⟩

/-- C7: `toggle_interface_status_wan2` issues exactly one link-state call:
`down` when the observed status is `UP`, and `up` for every other observed
status (`DOWN` or `UNKNOWN`, including query failure). -/
theorem toggle_interface_status_wan2_spec (output : Option String) :
    (get_interface_status output = "UP" →
      toggle_interface_status_wan2Cmds output = ["down"]) ∧
    (get_interface_status output ≠ "UP" →
      toggle_interface_status_wan2Cmds output = ["up"]) ∧
    (toggle_interface_status_wan2Cmds output).length = 1 := by
  refine ⟨fun h => ?_, fun h => ?_, rfl⟩ <;>
    simp [toggle_interface_status_wan2Cmds, h]

/-- C7 witness: a listing reporting `state UP` toggles down; a failed query
toggles up. -/
theorem toggle_interface_status_wan2_witness :
    toggle_interface_status_wan2Cmds
      (some "2: ens20: <BROADCAST,MULTICAST,UP,LOWER_UP> state UP mode DEFAULT") = ["down"] ∧
    toggle_interface_status_wan2Cmds none = ["up"] :=
  ⟨(toggle_interface_status_wan2_spec
      (some "2: ens20: <BROADCAST,MULTICAST,UP,LOWER_UP> state UP mode DEFAULT")).1 (by decide),
   (toggle_interface_status_wan2_spec none).2.1 (by decide)⟩

/-- C8: every query-style read substitutes its documented default on
backend failure: `get_netem_params` the zero triple, `get_htb_rate` the
`'no limit'` sentinel (also when no line mentions the class `htb 1:10`),
and `get_interface_status` `'UNKNOWN'` (also when the output has neither a
`state UP` nor a `state DOWN` token). -/
theorem query_failure_defaults_spec (out : String) :
    get_netem_params none = PyResult.ok ⟨"0ms", "0ms", "0%"⟩ ∧
    get_htb_rate none = PyResult.ok "no limit" ∧
    get_interface_status none = "UNKNOWN" ∧
    ((∀ l ∈ splitlines out, strContains l "class htb 1:10" = false) →
      get_htb_rate (some out) = PyResult.ok "no limit") ∧
    (strContains out "state UP" = false → strContains out "state DOWN" = false →
      get_interface_status (some out) = "UNKNOWN") := by
  refine ⟨rfl, rfl, rfl, fun h => ?_, fun h1 h2 => ?_⟩
  · by_cases hout : out = ""
    · simp [get_htb_rate, hout]
    · simp [get_htb_rate, hout, htbLines_no_class _ h]
  · by_cases hout : out = ""
    · simp [get_interface_status, hout]
    · simp [get_interface_status, hout, h1, h2]

/-- C8 witness: a listing with no `htb 1:10` class yields `'no limit'` and
a link listing with no recognized state token yields `'UNKNOWN'`. -/
theorem query_failure_defaults_witness :
    get_htb_rate (some "qdisc noqueue 0: root refcnt 2") = PyResult.ok "no limit" ∧
    get_interface_status (some "2: ens20: <BROADCAST> state DORMANT mode DEFAULT")
      = "UNKNOWN" :=
  ⟨(query_failure_defaults_spec "qdisc noqueue 0: root refcnt 2").2.2.2.1 (by decide),
   (query_failure_defaults_spec "2: ens20: <BROADCAST> state DORMANT mode DEFAULT").2.2.2.2
     (by decide) (by decide)⟩

/-- C9: the spec says a rebuild failure is surfaced as an explicit
failed-operation result.  Counterexample: under an oracle failing every
command the rebuild fails, under one failing only the in-place change the
rebuild succeeds, yet `set_netem` returns the same bare `None` in both
runs — no success/failure result distinguishes them. -/
theorem mutating_ops_return_none_cex :
    rebuildFailed (set_netemRun WAN1 (fun _ => false) none
      (some "200ms") (some "0ms") (some "0%")).1 = true ∧
    rebuildFailed (set_netemRun WAN1 isRebuildCmd none
      (some "200ms") (some "0ms") (some "0%")).1 = false ∧
    (set_netemRun WAN1 (fun _ => false) none (some "200ms") (some "0ms") (some "0%")).2 =
      (set_netemRun WAN1 isRebuildCmd none (some "200ms") (some "0ms") (some "0%")).2 :=
  ⟨by decide, by decide, rfl⟩

/-- C9 (amended): a write-path failure is absorbed by exactly one fallback
level — the commands a run issues depend only on the outcome of the
in-place change, never on the rebuild commands' outcomes — and the
operations return the bare `None` on every path, so a rebuild failure is
reported only by the command runner's printed message, not by a returned
success/failure result. -/
theorem write_fallback_one_level_spec (iface : String) (exec1 exec2 : Cmd → Bool)
    (st : Option ShapeConf) (delay jitter loss : Option String) (rate : String) :
    (set_netemRun iface exec1 st delay jitter loss).2 = PyNone.none ∧
    (set_htb_rateRun exec1 st rate).2 = PyNone.none ∧
    (exec1 (netemChangeCmdOf st delay jitter loss) =
        exec2 (netemChangeCmdOf st delay jitter loss) →
      runCmds (set_netemRun iface exec1 st delay jitter loss) =
        runCmds (set_netemRun iface exec2 st delay jitter loss)) ∧
    (exec1 (Cmd.classChangeRate rate) = exec2 (Cmd.classChangeRate rate) →
      runCmds (set_htb_rateRun exec1 st rate) = runCmds (set_htb_rateRun exec2 st rate)) := by
  refine ⟨?_, ?_, fun h => ?_, fun h => ?_⟩
  · simp only [set_netemRun]
  · simp only [set_htb_rateRun]
  · simp only [set_netemRun, netemChangeCmdOf, runCmds] at h ⊢
    rw [← h]
    split <;> simp [setup_qdiscsRun]
  · simp only [set_htb_rateRun, runCmds] at h ⊢
    rw [← h]
    split <;> simp [setup_qdiscsRun]

/-- C9 witness: with a concrete state and oracles agreeing on the in-place
change, the issued command lists coincide. -/
theorem write_fallback_one_level_witness :
    runCmds (set_netemRun WAN2 (fun _ => false) none
        (some "30ms") (some "1ms") (some "0%")) =
      runCmds (set_netemRun WAN2 isRebuildCmd none
        (some "30ms") (some "1ms") (some "0%")) ∧
    runCmds (set_htb_rateRun (fun _ => false) none "10mbit") =
      runCmds (set_htb_rateRun isRebuildCmd none "10mbit") :=
  ⟨(write_fallback_one_level_spec WAN2 (fun _ => false) isRebuildCmd none
      (some "30ms") (some "1ms") (some "0%") "10mbit").2.2.1 (by decide),
   (write_fallback_one_level_spec WAN2 (fun _ => false) isRebuildCmd none
      (some "30ms") (some "1ms") (some "0%") "10mbit").2.2.2 (by decide)⟩

/-- C10: the read-path parsers index one past a keyword token without a
bounds check: a netem line ending in `delay` or `loss`, or a class line
ending in `rate`, reaches the out-of-range branch (Python `IndexError`). -/
theorem readers_index_error_reachable :
    get_netem_params (some "netem delay") = PyResult.exc ∧
    get_netem_params (some "netem delay 1ms loss") = PyResult.exc ∧
    get_htb_rate (some "class htb 1:10 rate") = PyResult.exc :=
  ⟨by decide, by decide, by decide⟩

end WanManager
